import Mathlib

/-!
Verification of the webrtc-client-server-ros2 repository: a shallow embedding
of the signaling relay (wss server), the client-side drone stream manager,
the ROS2 image streamer (frame producer) and the compressed image publisher
(frame consumer), with theorems settling the specification's claims.

Connections (WebSocket handles) are modelled as natural numbers. The relay's
`clients` Map (JS `Map<string, socket>`) is modelled as an insertion-ordered
association list with unique keys maintained by an overwrite-on-set operation,
matching JS `Map.set` / `Map.get` / `Map.delete` semantics. JS numbers used in
arithmetic comparisons are modelled as rationals (time stamps as integers).
-/

namespace WebRTCRos2

/-- The relay's client registry: JS `Map<string, socket>` in insertion order. -/
abbrev Registry := List (String × Nat)

/-- JS `Map.get`: first (unique) entry with the key; `get(undefined)` is miss. -/
def mapGet (m : Registry) (k : Option String) : Option Nat :=
  match k with
  | none => none
  | some s => (m.find? (fun p => p.1 = s)).map (fun p => p.2)

/-- JS `Map.set`: overwrite the entry with the key in place, else append. -/
def mapSetJs (m : Registry) (k : String) (v : Nat) : Registry :=
  if m.any (fun p => p.1 = k) then
    m.map (fun p => if p.1 = k then (k, v) else p)
  else
    m ++ [(k, v)]

/-- JS `Map.delete`: remove the entry with the key, no-op when absent. -/
def mapDelete (m : Registry) (k : String) : Registry :=
  m.filter (fun p => ¬ p.1 = k)

/-- `findClientID` (wss.js): reverse lookup, first key whose value is the
    given socket in iteration (insertion) order, `null` when absent. -/
def findClientID (m : Registry) (socket : Nat) : Option String :=
  (m.find? (fun p => p.2 = socket)).map (fun p => p.1)

/-- The connection handler body of `init` (wss.js): assign the generated id
    to the connected socket in the registry. -/
def register (m : Registry) (id : String) (socket : Nat) : Registry :=
  mapSetJs m id socket

/-- `clearClient` (wss.js): reverse-look-up the socket's id and delete it;
    when the socket is unknown the lookup is `null` and `Map.delete(null)`
    on the string-keyed registry removes nothing. -/
def clearClient (m : Registry) (socket : Nat) : Registry :=
  match findClientID m socket with
  | some k => mapDelete m k
  | none => m

/-- The `data` payload of a relay message: its `socketID` field (absent =
    `undefined` / `null`) plus the rest of the opaque payload. -/
structure Payload where
  socketID : Option String
  rest : String
deriving DecidableEq, Repr

/-- A parsed relay message: `event`, optional root-level `socketID`, and the
    optional `data` object (`none` models a missing `data` field). -/
structure RelayMsg where
  event : String
  rootSocketID : Option String
  data : Option Payload
deriving DecidableEq, Repr

/-- JS truthiness of an optional string (`undefined`, `null` and `""` are
    falsy). -/
def jsTruthyOpt : Option String → Bool
  | none => false
  | some s => ¬ s = ""

/-- The requested target id as `onMessage` computes it: the root `socketID`
    when truthy, otherwise `data.socketID`. -/
def requestedSocketID (msg : RelayMsg) : Option String :=
  if jsTruthyOpt msg.rootSocketID then msg.rootSocketID
  else msg.data.bind (fun d => d.socketID)

/-- `onMessage` (wss.js): resolve the sender id by reverse lookup, compute the
    requested target id, and on a `webrtc_msg` event inject the resolved
    sender id into `data.socketID` and forward to the target when registered.
    Accessing `data.socketID` or assigning `data.socketID` when `data` is
    missing throws a `TypeError` (modelled by `Except.error`). Returns the
    (unchanged) registry and the delivery, if any, as target socket plus the
    payload sent to it. -/
def onMessage (clients : Registry) (socket : Nat) (msg : RelayMsg) :
    Except String (Registry × Option (Nat × Payload)) :=
  let socketClientID := findClientID clients socket
  let socketIDRes : Except String (Option String) :=
    if jsTruthyOpt msg.rootSocketID then .ok msg.rootSocketID
    else
      match msg.data with
      | none => .error "TypeError"
      | some d => .ok d.socketID
  match socketIDRes with
  | .error e => .error e
  | .ok socketID =>
    if msg.event = "webrtc_msg" then
      let wsClient := mapGet clients socketID
      match msg.data with
      | none => .error "TypeError"
      | some d =>
        let sent : Payload := { d with socketID := socketClientID }
        match wsClient with
        | some c => .ok (clients, some (c, sent))
        | none => .ok (clients, none)
    else
      .ok (clients, none)

theorem find?_map_set_same (m : Registry) (k : String) (v : Nat)
    (h : m.any (fun p => p.1 = k) = true) :
    (m.map (fun p => if p.1 = k then (k, v) else p)).find?
      (fun p => p.1 = k) = some (k, v) := by
  induction m with
  | nil => simp at h
  | cons p t ih =>
    by_cases hp : p.1 = k
    · simp only [List.map_cons, if_pos hp]
      exact List.find?_cons_of_pos _ (by simp)
    · simp only [List.any_cons, Bool.or_eq_true, decide_eq_true_eq] at h
      rcases h with h | h
      · exact absurd h hp
      · simp only [List.map_cons, if_neg hp]
        rw [List.find?_cons_of_neg _ (by simpa using hp)]
        exact ih h

theorem find?_map_set_other (m : Registry) (k k2 : String) (v : Nat)
    (hne : ¬ k2 = k) :
    (m.map (fun p => if p.1 = k then (k, v) else p)).find?
      (fun p => p.1 = k2) = m.find? (fun p => p.1 = k2) := by
  induction m with
  | nil => simp
  | cons p t ih =>
    by_cases hp : p.1 = k
    · have hpk2 : ¬ p.1 = k2 := by rw [hp]; exact fun hc => hne hc.symm
      simp only [List.map_cons, if_pos hp]
      rw [List.find?_cons_of_neg _ (by simpa using fun hc => hne hc.symm),
        List.find?_cons_of_neg _ (by simpa using hpk2)]
      exact ih
    · simp only [List.map_cons, if_neg hp]
      by_cases hpk2 : p.1 = k2
      · rw [List.find?_cons_of_pos _ (by simpa using hpk2),
          List.find?_cons_of_pos _ (by simpa using hpk2)]
      · rw [List.find?_cons_of_neg _ (by simpa using hpk2),
          List.find?_cons_of_neg _ (by simpa using hpk2)]
        exact ih

theorem mapGet_mapSetJs_same (m : Registry) (k : String) (v : Nat) :
    mapGet (mapSetJs m k v) (some k) = some v := by
  simp only [mapGet, mapSetJs]
  by_cases h : m.any (fun p => p.1 = k)
  · simp only [h, if_true]
    rw [find?_map_set_same m k v h]
    rfl
  · rw [if_neg h, List.find?_append]
    have hnone : m.find? (fun p => p.1 = k) = none := by
      rw [List.find?_eq_none]
      intro x hx
      simp only [decide_eq_true_eq]
      intro hc
      exact h (List.any_eq_true.mpr ⟨x, hx, by simp [hc]⟩)
    rw [hnone]
    simp

theorem mapGet_mapSetJs_other (m : Registry) (k k2 : String) (v : Nat)
    (hne : ¬ k2 = k) :
    mapGet (mapSetJs m k v) (some k2) = mapGet m (some k2) := by
  simp only [mapGet, mapSetJs]
  by_cases h : m.any (fun p => p.1 = k)
  · simp only [h, if_true]
    rw [find?_map_set_other m k k2 v hne]
  · rw [if_neg h, List.find?_append]
    have hsingle : ([(k, v)] : Registry).find? (fun p => p.1 = k2) = none := by
      rw [List.find?_eq_none]
      intro x hx
      simp only [List.mem_singleton] at hx
      subst hx
      simpa using fun hc => hne hc.symm
    rw [hsingle]
    cases m.find? (fun p => p.1 = k2) <;> rfl

/-- Claim C1: for every forwarded envelope whose target id is present in the
    registry, the relay delivers the payload to the target connection with the
    sender-id field (`data.socketID`) set to the id the relay itself resolved
    by reverse lookup of the sending connection, overwriting whatever
    sender-id value the sender supplied in the payload. -/
theorem relay_forwards_with_resolved_sender
    (clients : Registry) (socket c : Nat) (msg : RelayMsg) (d : Payload)
    (hdata : msg.data = some d) (hev : msg.event = "webrtc_msg")
    (htarget : mapGet clients (requestedSocketID msg) = some c) :
    onMessage clients socket msg =
      .ok (clients, some (c, { d with socketID := findClientID clients socket })) := by
  by_cases hr : jsTruthyOpt msg.rootSocketID
  · have hreq : requestedSocketID msg = msg.rootSocketID := by
      simp [requestedSocketID, hr]
    rw [hreq] at htarget
    simp [onMessage, hr, hdata, hev, htarget]
  · have hreq : requestedSocketID msg = d.socketID := by
      simp [requestedSocketID, hr, hdata]
    rw [hreq] at htarget
    simp [onMessage, hr, hdata, hev, htarget]

/-- Witness for C1: with registry mapping `a1` to connection 1 and `b2` to
    connection 2, a message from connection 1 targeting `b2` with a spoofed
    sender id is delivered to connection 2 carrying sender id `a1`. -/
theorem relay_forwards_with_resolved_sender_witness :
    onMessage [("a1", 1), ("b2", 2)] 1
        ⟨"webrtc_msg", some "b2", some ⟨some "spoofed", "offer"⟩⟩ =
      .ok ([("a1", 1), ("b2", 2)], some (2, ⟨some "a1", "offer"⟩)) := by
  have h := relay_forwards_with_resolved_sender [("a1", 1), ("b2", 2)] 1 2
    ⟨"webrtc_msg", some "b2", some ⟨some "spoofed", "offer"⟩⟩
    ⟨some "spoofed", "offer"⟩ rfl rfl (by decide)
  simpa using h

/-- Claim C7: for every inbound envelope whose target id is not present in the
    registry, the relay drops the message (no delivery to any connection), the
    registry is unchanged, and no exception escapes the message handler. -/
theorem relay_drops_unknown_target
    (clients : Registry) (socket : Nat) (msg : RelayMsg) (d : Payload)
    (hdata : msg.data = some d) (hev : msg.event = "webrtc_msg")
    (htarget : mapGet clients (requestedSocketID msg) = none) :
    onMessage clients socket msg = .ok (clients, none) := by
  by_cases hr : jsTruthyOpt msg.rootSocketID
  · have hreq : requestedSocketID msg = msg.rootSocketID := by
      simp [requestedSocketID, hr]
    rw [hreq] at htarget
    simp [onMessage, hr, hdata, hev, htarget]
  · have hreq : requestedSocketID msg = d.socketID := by
      simp [requestedSocketID, hr, hdata]
    rw [hreq] at htarget
    simp [onMessage, hr, hdata, hev, htarget]

/-- Witness for C7: with only `a1` registered, a message targeting the
    unknown id `zz` yields no delivery, an unchanged registry and a normal
    (non-throwing) return. -/
theorem relay_drops_unknown_target_witness :
    onMessage [("a1", 1)] 1 ⟨"webrtc_msg", some "zz", some ⟨none, "offer"⟩⟩ =
      .ok ([("a1", 1)], none) := by
  have h := relay_drops_unknown_target [("a1", 1)] 1
    ⟨"webrtc_msg", some "zz", some ⟨none, "offer"⟩⟩ ⟨none, "offer"⟩
    rfl rfl (by decide)
  simpa using h

/-- Claim C3 counterexample: the relay draws ids from `Math.random` with no
    collision check, so when the generator yields the same string twice the
    two distinct connections 1 and 2 are both assigned id `abc`; the second
    registration silently overwrites the first, which becomes unreachable. -/
theorem register_id_collision_cex :
    (1 : Nat) ≠ 2 ∧
    register (register [] "abc" 1) "abc" 2 = [("abc", 2)] ∧
    findClientID (register (register [] "abc" 1) "abc" 2) 1 = none := by
  decide

/-- Claim C3 (amended): whenever the generated ids are distinct, the two
    registered connections keep distinct registry entries, each id mapping to
    its own connection; and unregistering a connection that is not in the
    registry is a no-op that leaves the registry unchanged and raises no
    error. -/
theorem register_distinct_ids_and_clear_noop :
    (∀ (m : Registry) (id1 id2 : String) (s1 s2 : Nat), id1 ≠ id2 →
      mapGet (register (register m id1 s1) id2 s2) (some id1) = some s1 ∧
      mapGet (register (register m id1 s1) id2 s2) (some id2) = some s2) ∧
    (∀ (m : Registry) (s : Nat), findClientID m s = none → clearClient m s = m) := by
  constructor
  · intro m id1 id2 s1 s2 hne
    constructor
    · rw [register, register, mapGet_mapSetJs_other _ id2 id1 s2 hne]
      exact mapGet_mapSetJs_same m id1 s1
    · exact mapGet_mapSetJs_same _ id2 s2
  · intro m s h
    simp [clearClient, h]

/-- Witness for C3 (amended): distinct generated ids `a` and `b` give the two
    connections distinct live entries, and unregistering the unknown
    connection 99 leaves the registry untouched. -/
theorem register_distinct_ids_and_clear_noop_witness :
    (mapGet (register (register [] "a" 1) "b" 2) (some "a") = some 1 ∧
      mapGet (register (register [] "a" 1) "b" 2) (some "b") = some 2) ∧
    clearClient [("a", 1)] 99 = [("a", 1)] :=
  ⟨register_distinct_ids_and_clear_noop.1 [] "a" "b" 1 2 (by decide),
    register_distinct_ids_and_clear_noop.2 [("a", 1)] 99 (by decide)⟩

/-! ## Frame Producer: `ROS2ImageStreamer` (src/ROS2ImageStreamer.js)

Times are integer milliseconds (`Date.now()`); JS numbers occurring in the
rate arithmetic (`1000 / frameRate * 0.8`, `videoWidth * scaleFactor`) are
modelled as rationals. `wsReadyState` follows the WebSocket constants
(CONNECTING 0, OPEN 1, CLOSING 2, CLOSED 3). -/

/-- The mutable fields of a `ROS2ImageStreamer` object, together with the
    observable pieces of its environment (video element readiness and
    dimensions, WebSocket buffer and ready state, canvas attachment). -/
structure StreamerState where
  isStreaming : Bool
  hasVideoElement : Bool
  wsPresent : Bool
  wsReadyState : Nat
  bufferedAmount : Nat
  lastFrameTime : Int
  frameRate : ℚ
  frameDropCount : Nat
  intervalId : Option Nat
  videoReadyState : Nat
  videoWidth : Nat
  videoHeight : Nat
  scaleFactor : ℚ
  quality : ℚ
  canvasAttached : Bool
deriving DecidableEq, Repr

/-- The frame message sent on the side channel (`type: image_frame`): scaled
    dimensions and the capture timestamp. -/
structure FrameMsg where
  width : Int
  height : Int
  timestamp : Int
deriving DecidableEq, Repr

/-- `captureAndSendFrame`: one producer tick at time `now`. Returns the new
    streamer state and the frame sent on the side channel, if any. -/
def captureAndSendFrame (st : StreamerState) (now : Int) :
    StreamerState × Option FrameMsg :=
  if ¬st.isStreaming ∨ ¬st.hasVideoElement ∨ ¬st.wsPresent then (st, none)
  else if st.bufferedAmount > 1024 * 50 then
    ({ st with frameDropCount := st.frameDropCount + 1 }, none)
  else
    let timeSinceLastFrame : ℚ := (now : ℚ) - (st.lastFrameTime : ℚ)
    let expectedInterval : ℚ := 1000 / st.frameRate
    if timeSinceLastFrame < expectedInterval * (8 / 10) then
      ({ st with frameDropCount := st.frameDropCount + 1 }, none)
    else if st.videoReadyState < 2 then (st, none)
    else if st.videoWidth = 0 ∨ st.videoHeight = 0 then (st, none)
    else
      let stAccepted := { st with lastFrameTime := now }
      let targetWidth : Int := ⌊(st.videoWidth : ℚ) * st.scaleFactor⌋
      let targetHeight : Int := ⌊(st.videoHeight : ℚ) * st.scaleFactor⌋
      if st.wsReadyState = 1 then
        (stAccepted, some ⟨targetWidth, targetHeight, now⟩)
      else
        (stAccepted, none)

/-- `stopStreaming`: early return when not streaming, else clear the flag and
    the capture timer. The second component counts timers actually cleared. -/
def stopStreaming (st : StreamerState) : StreamerState × Nat :=
  if ¬st.isStreaming then (st, 0)
  else
    let cleared := if st.intervalId.isSome then 1 else 0
    ({ st with isStreaming := false, intervalId := none }, cleared)

/-- `disconnect`: stop streaming, close and null the WebSocket when present,
    and detach the hidden canvas when still attached. The second component
    counts the resource releases actually performed (timer cleared, socket
    closed, canvas removed). -/
def disconnect (st : StreamerState) : StreamerState × Nat :=
  let stopRes := stopStreaming st
  let wsRes :=
    if stopRes.1.wsPresent then
      ({ stopRes.1 with wsPresent := false, wsReadyState := 3 }, 1)
    else (stopRes.1, 0)
  let canvasRes :=
    if wsRes.1.canvasAttached then
      ({ wsRes.1 with canvasAttached := false }, 1)
    else (wsRes.1, 0)
  (canvasRes.1, stopRes.2 + wsRes.2 + canvasRes.2)

/-- A concrete streamer state used by the producer witnesses: actively
    streaming at 8 FPS with an open, idle socket and a ready 640x480 source. -/
def sampleStreamer : StreamerState :=
  { isStreaming := true, hasVideoElement := true, wsPresent := true,
    wsReadyState := 1, bufferedAmount := 0, lastFrameTime := 0,
    frameRate := 8, frameDropCount := 0, intervalId := some 7,
    videoReadyState := 4, videoWidth := 640, videoHeight := 480,
    scaleFactor := 1 / 2, quality := 3 / 10, canvasAttached := true }

/-- Claim C5: on each producer tick the checks apply in this order — a
    side-channel buffer above the 50 KB high-water mark drops the tick and
    counts it; otherwise elapsed time under 80 percent of the 1000/targetFps
    target interval drops the tick and counts it; otherwise a source that is
    not ready or has zero width or height skips the tick silently without
    touching the drop counter. -/
theorem producer_tick_check_order :
    (∀ (st : StreamerState) (now : Int),
      st.isStreaming → st.hasVideoElement → st.wsPresent →
      st.bufferedAmount > 1024 * 50 →
      captureAndSendFrame st now =
        ({ st with frameDropCount := st.frameDropCount + 1 }, none)) ∧
    (∀ (st : StreamerState) (now : Int),
      st.isStreaming → st.hasVideoElement → st.wsPresent →
      st.bufferedAmount ≤ 1024 * 50 →
      (now : ℚ) - (st.lastFrameTime : ℚ) < 1000 / st.frameRate * (8 / 10) →
      captureAndSendFrame st now =
        ({ st with frameDropCount := st.frameDropCount + 1 }, none)) ∧
    (∀ (st : StreamerState) (now : Int),
      st.isStreaming → st.hasVideoElement → st.wsPresent →
      st.bufferedAmount ≤ 1024 * 50 →
      ¬((now : ℚ) - (st.lastFrameTime : ℚ) < 1000 / st.frameRate * (8 / 10)) →
      (st.videoReadyState < 2 ∨ st.videoWidth = 0 ∨ st.videoHeight = 0) →
      captureAndSendFrame st now = (st, none)) := by
  refine ⟨?_, ?_, ?_⟩
  · intro st now h1 h2 h3 hbuf
    simp only [captureAndSendFrame]
    rw [if_neg (by simp [h1, h2, h3]), if_pos hbuf]
  · intro st now h1 h2 h3 hbuf hpace
    simp only [captureAndSendFrame]
    rw [if_neg (by simp [h1, h2, h3]), if_neg (by omega), if_pos hpace]
  · intro st now h1 h2 h3 hbuf hpace hnr
    simp only [captureAndSendFrame]
    rw [if_neg (by simp [h1, h2, h3]), if_neg (by omega), if_neg hpace]
    by_cases hrs : st.videoReadyState < 2
    · rw [if_pos hrs]
    · rw [if_neg hrs]
      have hwh : st.videoWidth = 0 ∨ st.videoHeight = 0 := by
        rcases hnr with h | h | h
        · exact absurd h hrs
        · exact Or.inl h
        · exact Or.inr h
      rw [if_pos hwh]

/-- Witness for C5: a congested buffer (60000 B) drops and counts; a tick
    only 50 ms after the last accepted frame at 8 FPS (interval 125 ms, 80
    percent bound 100 ms) drops and counts; a zero-width source skips without
    counting. -/
theorem producer_tick_check_order_witness :
    captureAndSendFrame { sampleStreamer with bufferedAmount := 60000 } 200 =
      ({ sampleStreamer with bufferedAmount := 60000, frameDropCount := 1 },
        none) ∧
    captureAndSendFrame { sampleStreamer with lastFrameTime := 150 } 200 =
      ({ sampleStreamer with lastFrameTime := 150, frameDropCount := 1 },
        none) ∧
    captureAndSendFrame { sampleStreamer with videoWidth := 0 } 200 =
      ({ sampleStreamer with videoWidth := 0 }, none) := by
  refine ⟨?_, ?_, ?_⟩
  · exact producer_tick_check_order.1 _ 200 rfl rfl rfl (by norm_num)
  · exact producer_tick_check_order.2.1 _ 200 rfl rfl rfl
      (by norm_num [sampleStreamer]) (by norm_num [sampleStreamer])
  · exact producer_tick_check_order.2.2 _ 200 rfl rfl rfl
      (by norm_num [sampleStreamer]) (by norm_num [sampleStreamer])
      (by norm_num [sampleStreamer])

/-- Claim C10: on a producer tick whose source is ready with nonzero
    dimensions but whose socket ready state is not OPEN at send time, the
    frame is silently lost — `lastFrameTime` is still set to `now`, nothing
    is transmitted, and the drop counter is unchanged. -/
theorem producer_silent_loss_when_socket_not_open
    (st : StreamerState) (now : Int)
    (h1 : st.isStreaming) (h2 : st.hasVideoElement) (h3 : st.wsPresent)
    (hbuf : st.bufferedAmount ≤ 1024 * 50)
    (hpace : ¬((now : ℚ) - (st.lastFrameTime : ℚ) <
      1000 / st.frameRate * (8 / 10)))
    (hready : 2 ≤ st.videoReadyState)
    (hw : st.videoWidth ≠ 0) (hh : st.videoHeight ≠ 0)
    (hnotopen : st.wsReadyState ≠ 1) :
    captureAndSendFrame st now = ({ st with lastFrameTime := now }, none) := by
  simp only [captureAndSendFrame]
  rw [if_neg (by simp [h1, h2, h3]), if_neg (by omega), if_neg hpace,
    if_neg (by omega), if_neg (by tauto), if_neg hnotopen]

/-- Witness for C10: an otherwise-accepting tick at time 200 with the socket
    in CLOSED state updates `lastFrameTime` to 200, transmits nothing, and
    leaves the drop counter at 0. -/
theorem producer_silent_loss_when_socket_not_open_witness :
    captureAndSendFrame { sampleStreamer with wsReadyState := 3 } 200 =
      ({ sampleStreamer with wsReadyState := 3, lastFrameTime := 200 },
        none) :=
  producer_silent_loss_when_socket_not_open _ 200 rfl rfl rfl
    (by norm_num [sampleStreamer]) (by norm_num [sampleStreamer])
    (by norm_num [sampleStreamer])
    (by norm_num [sampleStreamer]) (by norm_num [sampleStreamer])
    (by norm_num [sampleStreamer])

/-! ## Frame Consumer: `ROS2ImagePublisherCompressed` (unnamed part_003)

`publishCompressedImageFrame` is modelled as a function of the consumer state,
the arrival time `now` (`Date.now()`), and a flag saying whether the
downstream publish succeeds or throws (the throw is caught by the handler's
`try`/`catch`, whose `finally` clears the processing flag). -/

/-- The mutable fields of the compressed image publisher that the frame
    handler reads or writes. -/
structure PublisherState where
  isInitialized : Bool
  hasPublisher : Bool
  isProcessing : Bool
  frameDropCount : Nat
  lastPublishTime : Int
  minPublishInterval : Int
deriving DecidableEq, Repr

/-- The observable outcome of one `publishCompressedImageFrame` call. -/
inductive PublishOutcome where
  | skippedUninit
  | rateLimitDrop
  | busyDrop
  | published
  | failed
deriving DecidableEq, Repr

/-- `publishCompressedImageFrame`: skip when uninitialized; rate-limit drop
    when the previous publish was under `minPublishInterval` ms ago; busy
    drop when a frame is still processing; otherwise set the processing flag
    and `lastPublishTime := now`, attempt the publish, and clear the flag in
    the `finally` on both the success and the throw path. -/
def publishCompressedImageFrame (st : PublisherState) (now : Int)
    (publishOk : Bool) : PublisherState × PublishOutcome :=
  if ¬st.isInitialized ∨ ¬st.hasPublisher then (st, .skippedUninit)
  else if now - st.lastPublishTime < st.minPublishInterval then
    ({ st with frameDropCount := st.frameDropCount + 1 }, .rateLimitDrop)
  else if st.isProcessing then
    ({ st with frameDropCount := st.frameDropCount + 1 }, .busyDrop)
  else
    ({ st with lastPublishTime := now, isProcessing := false },
      if publishOk then .published else .failed)

/-- Processing a sequence of frames, each given as arrival time plus the
    publish-success flag, through `publishCompressedImageFrame`. -/
def processFrames (st : PublisherState) :
    List (Int × Bool) → PublisherState × List PublishOutcome
  | [] => (st, [])
  | f :: fs =>
    let r := publishCompressedImageFrame st f.1 f.2
    let rest := processFrames r.1 fs
    (rest.1, r.2 :: rest.2)

/-- A concrete consumer state for the witnesses: initialized, idle, default
    100 ms minimum publish interval, last publish at time 0. -/
def samplePublisher : PublisherState :=
  { isInitialized := true, hasPublisher := true, isProcessing := false,
    frameDropCount := 0, lastPublishTime := 0, minPublishInterval := 100 }

theorem publish_rate_drop (st : PublisherState) (now : Int) (ok : Bool)
    (h1 : st.isInitialized) (h2 : st.hasPublisher)
    (h : now - st.lastPublishTime < st.minPublishInterval) :
    publishCompressedImageFrame st now ok =
      ({ st with frameDropCount := st.frameDropCount + 1 }, .rateLimitDrop) := by
  simp only [publishCompressedImageFrame]
  rw [if_neg (by simp [h1, h2]), if_pos h]

theorem publish_attempt (st : PublisherState) (now : Int) (ok : Bool)
    (h1 : st.isInitialized) (h2 : st.hasPublisher)
    (hrate : ¬(now - st.lastPublishTime < st.minPublishInterval))
    (hproc : ¬st.isProcessing) :
    publishCompressedImageFrame st now ok =
      ({ st with lastPublishTime := now, isProcessing := false },
        if ok then .published else .failed) := by
  simp only [publishCompressedImageFrame]
  rw [if_neg (by simp [h1, h2]), if_neg hrate, if_neg hproc]

theorem processFrames_cons_eq (st s2 sF : PublisherState) (f : Int × Bool)
    (fs : List (Int × Bool)) (o : PublishOutcome) (outs : List PublishOutcome)
    (h1 : publishCompressedImageFrame st f.1 f.2 = (s2, o))
    (h2 : processFrames s2 fs = (sF, outs)) :
    processFrames st (f :: fs) = (sF, o :: outs) := by
  simp only [processFrames, h1]
  rw [h2]

/-- Claim C6: with `minPublishInterval = 100` ms and the processing flag
    clear, 5 frames arriving within a 50 ms window (the first at least 100 ms
    after the previous publish) yield exactly 1 publish and exactly 4 counted
    drops; in general every frame arriving strictly less than
    `minPublishInterval` after `lastPublishTime` is dropped, counted, and not
    published. -/
theorem consumer_rate_limit :
    (∀ (st : PublisherState) (now : Int) (ok : Bool),
      st.isInitialized → st.hasPublisher →
      now - st.lastPublishTime < st.minPublishInterval →
      publishCompressedImageFrame st now ok =
        ({ st with frameDropCount := st.frameDropCount + 1 },
          .rateLimitDrop)) ∧
    (∀ (st : PublisherState) (t1 t2 t3 t4 t5 : Int),
      st.isInitialized → st.hasPublisher → ¬st.isProcessing →
      st.minPublishInterval = 100 →
      st.lastPublishTime + 100 ≤ t1 →
      t1 ≤ t2 → t2 ≤ t1 + 50 → t1 ≤ t3 → t3 ≤ t1 + 50 →
      t1 ≤ t4 → t4 ≤ t1 + 50 → t1 ≤ t5 → t5 ≤ t1 + 50 →
      processFrames st
          [(t1, true), (t2, true), (t3, true), (t4, true), (t5, true)] =
        ({ st with lastPublishTime := t1, isProcessing := false,
                   frameDropCount := st.frameDropCount + 4 },
          [.published, .rateLimitDrop, .rateLimitDrop, .rateLimitDrop,
            .rateLimitDrop])) := by
  constructor
  · intro st now ok h1 h2 h
    exact publish_rate_drop st now ok h1 h2 h
  · intro st t1 t2 t3 t4 t5 h1 h2 hproc hmin hgap ha2 hb2 ha3 hb3 ha4 hb4 ha5 hb5
    refine processFrames_cons_eq _ _ _ _ _ _ _
      ((publish_attempt st t1 true h1 h2 (by omega) hproc).trans
        (by rw [if_pos rfl])) ?_
    refine processFrames_cons_eq _ _ _ _ _ _ _
      (publish_rate_drop _ t2 true h1 h2
        (show t2 - t1 < st.minPublishInterval by omega)) ?_
    refine processFrames_cons_eq _ _ _ _ _ _ _
      (publish_rate_drop _ t3 true h1 h2
        (show t3 - t1 < st.minPublishInterval by omega)) ?_
    refine processFrames_cons_eq _ _ _ _ _ _ _
      (publish_rate_drop _ t4 true h1 h2
        (show t4 - t1 < st.minPublishInterval by omega)) ?_
    refine processFrames_cons_eq _ _ _ _ _ _ _
      (publish_rate_drop _ t5 true h1 h2
        (show t5 - t1 < st.minPublishInterval by omega)) ?_
    rfl

/-- Witness for C6: a frame at 150 (rate window open since the last publish
    at 0) publishes, and the four frames at 160, 170, 180, 190 are all
    rate-limit dropped, leaving the drop counter at 4. -/
theorem consumer_rate_limit_witness :
    publishCompressedImageFrame { samplePublisher with lastPublishTime := 100 }
        150 true =
      ({ samplePublisher with lastPublishTime := 100, frameDropCount := 1 },
        .rateLimitDrop) ∧
    processFrames samplePublisher
        [(150, true), (160, true), (170, true), (180, true), (190, true)] =
      ({ samplePublisher with lastPublishTime := 150, isProcessing := false,
                              frameDropCount := 4 },
        [.published, .rateLimitDrop, .rateLimitDrop, .rateLimitDrop,
          .rateLimitDrop]) := by
  constructor
  · exact consumer_rate_limit.1 _ 150 true rfl rfl
      (by norm_num [samplePublisher])
  · exact consumer_rate_limit.2 samplePublisher 150 160 170 180 190 rfl rfl
      (by simp [samplePublisher]) rfl (by norm_num [samplePublisher])
      (by norm_num) (by norm_num) (by norm_num) (by norm_num) (by norm_num)
      (by norm_num) (by norm_num) (by norm_num)

/-- Claim C8: in the frame consumer, the processing flag is clear at the end
    of every frame-processing attempt on both the success and the failure
    path, the handler returns normally in both cases, and the next frame
    outside the rate window is still eligible for publication. -/
theorem consumer_clears_processing_flag
    (st : PublisherState) (now : Int) (ok : Bool)
    (h1 : st.isInitialized) (h2 : st.hasPublisher)
    (hrate : ¬(now - st.lastPublishTime < st.minPublishInterval))
    (hproc : ¬st.isProcessing) :
    (publishCompressedImageFrame st now ok).1.isProcessing = false ∧
    ((publishCompressedImageFrame st now ok).2 = .published ∨
      (publishCompressedImageFrame st now ok).2 = .failed) ∧
    (∀ (now2 : Int) (ok2 : Bool), st.minPublishInterval ≤ now2 - now →
      ((publishCompressedImageFrame (publishCompressedImageFrame st now ok).1
          now2 ok2).2 = .published ∨
        (publishCompressedImageFrame (publishCompressedImageFrame st now ok).1
          now2 ok2).2 = .failed)) := by
  have e1 := publish_attempt st now ok h1 h2 hrate hproc
  refine ⟨?_, ?_, ?_⟩
  · rw [e1]
  · rw [e1]
    cases ok
    · exact Or.inr rfl
    · exact Or.inl rfl
  · intro now2 ok2 hwin
    rw [e1]
    dsimp only
    rw [publish_attempt { st with lastPublishTime := now, isProcessing := false }
      now2 ok2 h1 h2 (show ¬(now2 - now < st.minPublishInterval) by omega)
      (by simp)]
    cases ok2
    · exact Or.inr rfl
    · exact Or.inl rfl

/-- Witness for C8: a failing publish attempt at time 100 leaves the
    processing flag clear and returns normally, and the frame at time 200 is
    again eligible (here it publishes). -/
theorem consumer_clears_processing_flag_witness :
    (publishCompressedImageFrame samplePublisher 100 false).1.isProcessing
        = false ∧
    ((publishCompressedImageFrame samplePublisher 100 false).2 = .published ∨
      (publishCompressedImageFrame samplePublisher 100 false).2 = .failed) ∧
    ((publishCompressedImageFrame
        (publishCompressedImageFrame samplePublisher 100 false).1
        200 true).2 = .published ∨
      (publishCompressedImageFrame
        (publishCompressedImageFrame samplePublisher 100 false).1
        200 true).2 = .failed) := by
  have h := consumer_clears_processing_flag samplePublisher 100 false rfl rfl
    (by norm_num [samplePublisher]) (by simp [samplePublisher])
  exact ⟨h.1, h.2.1, h.2.2 200 true (by norm_num [samplePublisher])⟩

/-- Claim C9: `lastPublishTime` is set to the attempt time before publishing
    and is not rolled back when the publish throws, so a frame arriving
    within `minPublishInterval` after a failed attempt is rate-limit dropped
    exactly as if the failed frame had been published. -/
theorem consumer_failed_attempt_consumes_window
    (st : PublisherState) (now : Int)
    (h1 : st.isInitialized) (h2 : st.hasPublisher)
    (hrate : ¬(now - st.lastPublishTime < st.minPublishInterval))
    (hproc : ¬st.isProcessing) :
    (publishCompressedImageFrame st now false).1.lastPublishTime = now ∧
    (publishCompressedImageFrame st now false).2 = .failed ∧
    (∀ (now2 : Int) (ok2 : Bool), now2 - now < st.minPublishInterval →
      publishCompressedImageFrame
          (publishCompressedImageFrame st now false).1 now2 ok2 =
        ({ (publishCompressedImageFrame st now false).1 with
            frameDropCount :=
              (publishCompressedImageFrame st now false).1.frameDropCount + 1 },
          .rateLimitDrop)) := by
  rw [publish_attempt st now false h1 h2 hrate hproc]
  refine ⟨rfl, rfl, ?_⟩
  intro now2 ok2 hwin
  exact publish_rate_drop _ now2 ok2 h1 h2
    (show now2 - now < st.minPublishInterval by omega)

/-- Witness for C9: after a failed attempt at time 100, `lastPublishTime` is
    100 and the frame at time 150 is rate-limit dropped and counted. -/
theorem consumer_failed_attempt_consumes_window_witness :
    (publishCompressedImageFrame samplePublisher 100 false).1.lastPublishTime
        = 100 ∧
    (publishCompressedImageFrame samplePublisher 100 false).2 = .failed ∧
    publishCompressedImageFrame
        (publishCompressedImageFrame samplePublisher 100 false).1 150 true =
      ({ (publishCompressedImageFrame samplePublisher 100 false).1 with
          frameDropCount :=
            (publishCompressedImageFrame samplePublisher
              100 false).1.frameDropCount + 1 },
        .rateLimitDrop) := by
  have h := consumer_failed_attempt_consumes_window samplePublisher 100
    rfl rfl (by norm_num [samplePublisher]) (by simp [samplePublisher])
  exact ⟨h.1, h.2.1, h.2.2 150 true (by norm_num [samplePublisher])⟩

/-! ## Peer Link Manager: `DroneStreamManager` / `DroneStream` (WebRTCManager)

`ongoingStreams` is a plain JS object keyed by drone id, so it has the same
overwrite/delete semantics as the relay registry and is reused as `Registry`
with stream object ids as values. `allStreams` and `allProducers` track every
`DroneStream` and `ROS2ImageStreamer` object ever created, because a JS object
replaced in the dictionary (or in a `ros2Streamer` field) stays alive: its
peer connection and capture timer keep running until explicitly closed. -/

/-- A `DroneStream` object: its identity, drone id, currently referenced
    `ros2Streamer` (by producer id), and whether its `RTCPeerConnection` is
    still open. -/
structure StreamObj where
  sid : Nat
  droneID : String
  ros2Streamer : Option Nat
  pcOpen : Bool
deriving DecidableEq, Repr

/-- A `ROS2ImageStreamer` object created by `initializeROS2Streaming`: its
    identity, the stream object that created it, its `isStreaming` flag and
    whether its capture timer is running. -/
structure ProducerObj where
  pid : Nat
  owner : Nat
  isStreaming : Bool
  hasTimer : Bool
deriving DecidableEq, Repr

/-- The client-side manager state: the `ongoingStreams` dictionary plus every
    live object, with fresh-id counters. -/
structure ManagerState where
  ongoingStreams : Registry
  allStreams : List StreamObj
  allProducers : List ProducerObj
  nextSid : Nat
  nextPid : Nat
deriving DecidableEq, Repr

/-- The initial manager state: no streams, no producers. -/
def emptyManager : ManagerState := ⟨[], [], [], 0, 0⟩

/-- `DroneStreamManager.createDroneStream`: unconditionally construct a new
    `DroneStream` and store it under the drone id, overwriting (but not
    destroying) any existing entry — the code's own TODO notes that ongoing
    streams are not prevented from being instantiated again. -/
def createDroneStream (st : ManagerState) (droneID : String) : ManagerState :=
  { st with
    ongoingStreams := mapSetJs st.ongoingStreams droneID st.nextSid,
    allStreams := st.allStreams ++ [⟨st.nextSid, droneID, none, true⟩],
    nextSid := st.nextSid + 1 }

/-- `DroneStream.handleOnTrack` / `initializeROS2Streaming` on the stream
    object `sid` (the successful path): construct a fresh `ROS2ImageStreamer`,
    connect, and start its capture timer, overwriting the stream's
    `ros2Streamer` reference without disconnecting the previous streamer. -/
def handleOnTrack (st : ManagerState) (sid : Nat) : ManagerState :=
  if st.allStreams.any (fun s => s.sid = sid) then
    { st with
      allProducers := st.allProducers ++ [⟨st.nextPid, sid, true, true⟩],
      allStreams := st.allStreams.map (fun s =>
        if s.sid = sid then { s with ros2Streamer := some st.nextPid } else s),
      nextPid := st.nextPid + 1 }
  else st

/-- The effect of `ROS2ImageStreamer.disconnect` on a producer object:
    `stopStreaming` clears the flag and the timer when streaming. -/
def disconnectProducer (p : ProducerObj) : ProducerObj :=
  if p.isStreaming then { p with isStreaming := false, hasTimer := false }
  else p

/-- `DroneStreamManager.closeDroneStream`: `getStreamByDroneID` throws
    `KeyError` when the drone id is not in `ongoingStreams`; otherwise the
    stream's `ros2Streamer` (if any) is disconnected, the peer connection is
    closed, and the dictionary entry is deleted. -/
def closeDroneStream (st : ManagerState) (droneID : String) :
    Except String ManagerState :=
  match mapGet st.ongoingStreams (some droneID) with
  | none => .error "KeyError"
  | some sid =>
    match st.allStreams.find? (fun s => s.sid = sid) with
    | none =>
      .ok { st with ongoingStreams := mapDelete st.ongoingStreams droneID }
    | some s =>
      let producers :=
        match s.ros2Streamer with
        | some pid =>
          st.allProducers.map (fun p =>
            if p.pid = pid then disconnectProducer p else p)
        | none => st.allProducers
      .ok { st with
        allProducers := producers,
        allStreams := st.allStreams.map (fun t =>
          if t.sid = sid then { t with pcOpen := false } else t),
        ongoingStreams := mapDelete st.ongoingStreams droneID }

/-- Whether a `closeDroneStream` result is the `KeyError` throw. -/
def isKeyError : Except String ManagerState → Bool
  | .error s => s == "KeyError"
  | .ok _ => false

theorem mapGet_mapDelete_same (m : Registry) (k : String) :
    mapGet (mapDelete m k) (some k) = none := by
  simp only [mapGet, mapDelete]
  have hfind : (m.filter (fun p => ¬ p.1 = k)).find? (fun p => p.1 = k)
      = none := by
    rw [List.find?_eq_none]
    intro x hx
    have hmem := List.mem_filter.mp hx
    simpa using hmem.2
  rw [hfind]
  rfl

/-- Claim C2 is violated by the code: after one `createDroneStream` and two
    incoming media-track events on the resulting stream, two
    `ROS2ImageStreamer` objects with running capture timers are bound to the
    single PeerLink (the second `ontrack` overwrites `ros2Streamer` without
    disconnecting the first); and after two `createDroneStream` calls for the
    same remote id, two `DroneStream` objects with open peer connections
    exist for that id (the dictionary overwrite leaks the first). -/
theorem manager_duplicate_producers_and_streams :
    ((handleOnTrack (handleOnTrack (createDroneStream emptyManager "d1") 0)
        0).allProducers.filter
      (fun p => p.owner == 0 && p.hasTimer)).length = 2 ∧
    ((createDroneStream (createDroneStream emptyManager "d1")
        "d1").allStreams.filter
      (fun s => s.droneID == "d1" && s.pcOpen)).length = 2 := by
  decide

/-- Claim C4 counterexample: `closeDroneStream` for drone id `d` succeeds
    once, and the immediately repeated call throws `KeyError` instead of
    being an error-free no-op. -/
theorem closeDroneStream_twice_throws_cex :
    (closeDroneStream (createDroneStream emptyManager "d") "d").toOption.isSome
        = true ∧
    isKeyError ((closeDroneStream (createDroneStream emptyManager "d")
      "d").bind (fun m2 => closeDroneStream m2 "d")) = true := by
  decide

/-- Claim C4 (amended): calling `disconnect()` twice in a row on a frame
    producer produces no error and the second call releases no resource and
    changes nothing; a successful `closeDroneStream` removes the entry for
    the remote id, and calling `closeDroneStream` again for that id (or any
    id not in the dictionary) throws `KeyError` rather than being a no-op. -/
theorem disconnect_idem_and_second_close_throws :
    (∀ st : StreamerState,
      disconnect (disconnect st).1 = ((disconnect st).1, 0)) ∧
    (∀ (m : ManagerState) (d : String) (m2 : ManagerState),
      closeDroneStream m d = .ok m2 →
      mapGet m2.ongoingStreams (some d) = none) ∧
    (∀ (m : ManagerState) (d : String),
      mapGet m.ongoingStreams (some d) = none →
      closeDroneStream m d = .error "KeyError") := by
  refine ⟨?_, ?_, ?_⟩
  · intro st
    simp only [disconnect, stopStreaming]
    by_cases h1 : st.isStreaming <;> by_cases h2 : st.wsPresent <;>
      by_cases h3 : st.canvasAttached <;> simp [h1, h2, h3]
  · intro m d m2 h
    simp only [closeDroneStream] at h
    split at h
    · exact absurd h (by simp)
    · split at h
      · injection h with h
        subst h
        exact mapGet_mapDelete_same m.ongoingStreams d
      · injection h with h
        subst h
        exact mapGet_mapDelete_same m.ongoingStreams d
  · intro m d h
    simp only [closeDroneStream, h]

/-- Witness for C4 (amended): a second `disconnect` on the sample streamer is
    a no-op releasing nothing; the state after closing stream `d` has no
    dictionary entry for `d`, and closing `d` again from that state throws
    `KeyError`. -/
theorem disconnect_idem_and_second_close_throws_witness :
    disconnect (disconnect sampleStreamer).1 = ((disconnect sampleStreamer).1, 0) ∧
    mapGet (⟨[], [⟨0, "d", none, false⟩], [], 1, 0⟩ :
      ManagerState).ongoingStreams (some "d") = none ∧
    closeDroneStream (⟨[], [⟨0, "d", none, false⟩], [], 1, 0⟩ : ManagerState)
        "d" = .error "KeyError" :=
  ⟨disconnect_idem_and_second_close_throws.1 sampleStreamer,
    disconnect_idem_and_second_close_throws.2.1
      (createDroneStream emptyManager "d") "d" _ rfl,
    disconnect_idem_and_second_close_throws.2.2
      ⟨[], [⟨0, "d", none, false⟩], [], 1, 0⟩ "d" (by decide)⟩

end WebRTCRos2
